import Mathlib

/-!
Verification of the DNA-commit pipeline against its specification.

The Python sources (src/agents/collector.py, evaluator.py, generator.py,
reviewer.py, committer.py and src/main.py) are shallowly embedded below:
pure helpers become Lean functions, the JSON-backed stores become explicit
state values that each operation threads, and the external collaborators
(the language model, the `json.loads` parser used on model output, the
Python `compile` syntax checker, the git subprocess layer) appear as
explicit parameters so that every control path of the embedded code is a
function of them.
-/

namespace DNACommit

/-! ## Generic string helpers (Python `in`, `str.count`, `str.lower`) -/

/-- Python `pat in s` on character lists: `pat` occurs as a contiguous run. -/
def hasSub (pat : List Char) : List Char → Bool
  | [] => pat.isEmpty
  | c :: rest => List.isPrefixOf pat (c :: rest) || hasSub pat rest

/-- Python `s.count(pat)` for a non-empty pattern: number of
non-overlapping occurrences, scanning left to right. -/
def countSub (pat : List Char) : List Char → Nat
  | [] => 0
  | c :: rest =>
    if List.isPrefixOf pat (c :: rest) then
      1 + countSub pat (List.drop (pat.length - 1) rest)
    else
      countSub pat rest
termination_by l => l.length
decreasing_by
  · simp only [List.length_cons, List.length_drop]
    omega
  · simp only [List.length_cons]
    omega

/-- Python `pat in s` on strings. -/
def strContains (s pat : String) : Bool := hasSub pat.toList s.toList

/-- Python `s.count(c)` for a single character. -/
def countChar (c : Char) (s : String) : Int := (s.toList.count c : Int)

/-- Python `s.lower()` (ASCII case folding suffices for the messages the
code inspects). -/
def strLower (s : String) : String := String.mk (s.toList.map Char.toLower)

/-! ## A model of Python `json.loads` acceptance

`src/agents/generator.py` and the spec's repair property quantify over
"parses successfully as JSON".  The checker below follows the JSON grammar
accepted by Python's `json.loads` (RFC 8259 values; strings with the
standard escapes; numbers; `true`/`false`/`null`; whitespace is space,
tab, newline, carriage return).  It consumes a character list and returns
the unconsumed remainder on success; fuel bounds the recursion and is
instantiated with the input length, which one character per step can never
exhaust. -/

def isJsonWs (c : Char) : Bool :=
  c = ' ' || c = '\t' || c = '\n' || c = '\r'

def skipWs : List Char → List Char
  | [] => []
  | c :: rest => if isJsonWs c then skipWs rest else c :: rest

def isHexChar (c : Char) : Bool :=
  c.isDigit || ('a' ≤ c && c ≤ 'f') || ('A' ≤ c && c ≤ 'F')

/-- Parse the remainder of a JSON string after the opening quote. -/
def parseStringRest : Nat → List Char → Option (List Char)
  | 0, _ => none
  | _ + 1, [] => none
  | fuel + 1, c :: rest =>
    if c = '"' then some rest
    else if c = '\\' then
      match rest with
      | [] => none
      | e :: rest2 =>
        if e = '"' || e = '\\' || e = '/' || e = 'b' || e = 'f' ||
           e = 'n' || e = 'r' || e = 't' then
          parseStringRest fuel rest2
        else if e = 'u' then
          match rest2 with
          | h1 :: h2 :: h3 :: h4 :: rest6 =>
            if isHexChar h1 && isHexChar h2 && isHexChar h3 && isHexChar h4 then
              parseStringRest fuel rest6
            else none
          | _ => none
        else none
    else if c.toNat < 32 then none
    else parseStringRest fuel rest

/-- Optional exponent part of a JSON number. -/
def parseExpPart (l : List Char) : Option (List Char) :=
  match l with
  | 'e' :: r | 'E' :: r =>
    let r1 := match r with
      | '+' :: r2 => r2
      | '-' :: r2 => r2
      | _ => r
    match r1.span Char.isDigit with
    | ([], _) => none
    | (_ :: _, r2) => some r2
  | _ => some l

/-- Optional fraction then optional exponent of a JSON number. -/
def parseFracExp (l : List Char) : Option (List Char) :=
  match l with
  | '.' :: r =>
    (match r.span Char.isDigit with
     | ([], _) => none
     | (_ :: _, r2) => parseExpPart r2)
  | _ => parseExpPart l

/-- A JSON number (integer part already positioned at `l`). -/
def parseNumber (l : List Char) : Option (List Char) :=
  let l1 := match l with
    | '-' :: r => r
    | _ => l
  match l1 with
  | '0' :: r => parseFracExp r
  | c :: r =>
    if c.isDigit then
      parseFracExp (r.span Char.isDigit).2
    else none
  | [] => none

mutual

/-- A JSON value positioned at `l` (no leading whitespace). -/
def parseValue : Nat → List Char → Option (List Char)
  | 0, _ => none
  | _ + 1, [] => none
  | fuel + 1, c :: rest =>
    if c = '"' then parseStringRest fuel rest
    else if c = '{' then
      match skipWs rest with
      | '}' :: r2 => some r2
      | r1 => parseMembers fuel r1
    else if c = '[' then
      match skipWs rest with
      | ']' :: r2 => some r2
      | r1 => parseElements fuel r1
    else if c = 't' then
      if List.isPrefixOf ['r', 'u', 'e'] rest then some (rest.drop 3) else none
    else if c = 'f' then
      if List.isPrefixOf ['a', 'l', 's', 'e'] rest then some (rest.drop 4) else none
    else if c = 'n' then
      if List.isPrefixOf ['u', 'l', 'l'] rest then some (rest.drop 3) else none
    else parseNumber (c :: rest)

/-- Object members: `string : value ( , string : value )* }`. -/
def parseMembers : Nat → List Char → Option (List Char)
  | 0, _ => none
  | _ + 1, [] => none
  | fuel + 1, c :: rest =>
    if c = '"' then
      match parseStringRest fuel rest with
      | none => none
      | some r2 =>
        match skipWs r2 with
        | ':' :: r4 =>
          (match parseValue fuel (skipWs r4) with
           | none => none
           | some r5 =>
             match skipWs r5 with
             | ',' :: r7 => parseMembers fuel (skipWs r7)
             | '}' :: r7 => some r7
             | _ => none)
        | _ => none
    else none

/-- Array elements: `value ( , value )* ]`. -/
def parseElements : Nat → List Char → Option (List Char)
  | 0, _ => none
  | fuel + 1, l =>
    match parseValue fuel l with
    | none => none
    | some r =>
      match skipWs r with
      | ',' :: r2 => parseElements fuel (skipWs r2)
      | ']' :: r2 => some r2
      | _ => none

end

/-- Python `json.loads(s)` succeeds: one JSON value surrounded only by
whitespace. -/
def jsonParses (s : String) : Bool :=
  match parseValue (s.length + 1) (skipWs s.toList) with
  | none => false
  | some rest => (skipWs rest).isEmpty

/-! ## `CodeGenerator._repair_json` (src/agents/generator.py, lines 272-287) -/

/-- Mechanical repair of truncated JSON: append one `"` when the quote
count is odd, then append enough `]` and `}` to cancel any excess of
openers over closers (brackets first, then braces, exactly as the code
appends them). -/
def repair_json (s : String) : String :=
  let s1 := if countChar '"' s % 2 = 1 then s ++ "\"" else s
  let openBraces : Int := countChar '{' s1 - countChar '}' s1
  let openBrackets : Int := countChar '[' s1 - countChar ']' s1
  let s2 := if openBrackets > 0 then
      s1 ++ String.mk (List.replicate openBrackets.toNat ']') else s1
  let s3 := if openBraces > 0 then
      s2 ++ String.mk (List.replicate openBraces.toNat '}') else s2
  s3

/-! ## `CodeReviewer.should_auto_approve` (src/agents/reviewer.py, lines 202-223)

A review is a parsed JSON dict; every field the predicate reads may be
absent, which `dict.get` maps to a default.  `Option` models field
absence; scores are exact rationals. -/

structure ReviewIssue where
  severity : Option String
  description : Option String
deriving DecidableEq

structure Review where
  approved : Option Bool
  security_score : Option ℚ
  quality_score : Option ℚ
  compatibility_score : Option ℚ
  overall_score : Option ℚ
  issues : Option (List ReviewIssue)
  recommendation : Option String
deriving DecidableEq

/-- The graduated-autonomy gate: each `review.get(...)` with its default,
checked in source order with early `return False`. -/
def should_auto_approve (review : Review) : Bool :=
  if !review.approved.getD false then false
  else if review.recommendation ≠ some "approve" then false
  else if review.security_score.getD 0 < (0.8 : ℚ) then false
  else if review.overall_score.getD 0 < (0.7 : ℚ) then false
  else if (review.issues.getD []).any (fun i => i.severity = some "critical") then false
  else true

/-! ## `CodeGenerator._validate_generation` (src/agents/generator.py, lines 329-379)

The parsed model output is a JSON dict whose fields may be absent.  The
Python `compile(added_code, '<generated>', 'exec')` syntax check is an
external collaborator (the CPython parser); it is abstracted as a
function returning `none` on success or `some message` for the
`SyntaxError` text. -/

structure SingleChange where
  file_path : Option String
  function_name : Option String
  change_type : Option String
  diff : Option String
  description : Option String
  commit_message : Option String
  risk_level : Option String
deriving DecidableEq

/-- ASCII apostrophe, kept out of string literals. -/
def sq : String := String.mk [Char.ofNat 39]

/-- The `"""` delimiter. -/
def tripleDouble : List Char := ['"', '"', '"']

/-- The `'''` delimiter. -/
def tripleSingle : List Char := List.replicate 3 (Char.ofNat 39)

/-- Error text for a missing required field. -/
def errMissingField (field : String) : String :=
  "必須フィールド " ++ sq ++ field ++ sq ++ " がありません"

/-- Lines added by the diff: start with `+` but not `+++`, leading `+`
stripped. -/
def addedLinesOf (diff : String) : List String :=
  ((diff.splitOn "\n").filter
    (fun line => line.startsWith "+" && !line.startsWith "+++")).map
    (fun line => line.drop 1)

/-- The code ignores a `SyntaxError` whose text contains
`"unexpected EOF"` or whose lowercased text contains `"expected"`
(a truncated-fragment heuristic). -/
def isToleratedSyntaxError (msg : String) : Bool :=
  strContains msg "unexpected EOF" || strContains (strLower msg) "expected"

/-- Returns `(is_valid, errors)` for one parsed generation, errors accumulated in
source order. -/
def validate_generation (syntaxCheck : String → Option String)
    (g : SingleChange) : Bool × List String :=
  let requiredErrs :=
    (if g.file_path.isNone then [errMissingField "file_path"] else []) ++
    (if g.function_name.isNone then [errMissingField "function_name"] else []) ++
    (if g.diff.isNone then [errMissingField "diff"] else []) ++
    (if g.commit_message.isNone then [errMissingField "commit_message"] else [])
  let diff := g.diff.getD ""
  let emptyErrs :=
    if diff = "" || diff.trim.length < 10 then ["diffが空または短すぎます"] else []
  let truncationErrs :=
    if diff ≠ "" then
      (if countChar '(' diff - countChar ')' diff > 2 ||
          countChar '[' diff - countChar ']' diff > 2 ||
          countChar '{' diff - countChar '}' diff > 2 then
        ["diffに未閉じの括弧があります（コードが途中で切れている可能性）"] else []) ++
      (if countSub tripleDouble diff.toList % 2 = 1 then
        ["三重引用符が閉じていません"] else []) ++
      (if countSub tripleSingle diff.toList % 2 = 1 then
        ["三重シングル引用符が閉じていません"] else [])
    else []
  let addedLines := addedLinesOf diff
  let syntaxErrs :=
    if addedLines.isEmpty then []
    else
      match syntaxCheck (String.intercalate "\n" addedLines) with
      | none => []
      | some e =>
        if isToleratedSyntaxError e then []
        else ["構文エラーの可能性: " ++ e]
  let errors := requiredErrs ++ emptyErrs ++ truncationErrs ++ syntaxErrs
  (errors.isEmpty, errors)

/-! ## The item store (src/agents/collector.py)

An item is one entry of `collected_data["items"]`.  The `evaluation` slot
holds whatever dict `update_item_status` was handed; the fields below are
the projections the pipeline reads from it (`recommendation` and
`overall_score` for adoption, `generated_for` for the per-repository
bookkeeping that `main.run_generation` stores through the same slot). -/

structure EvalSlot where
  recommendation : Option String
  overall_score : Option ℚ
  generated_for : Option (List String)
deriving DecidableEq

structure Item where
  id : String
  url : String
  title : String
  status : String
  evaluation : Option EvalSlot
  generated_for : Option (List String)
  target_repo : Option String
deriving DecidableEq

/-- Embeds `InformationCollector._is_duplicate` (lines 49-52): the URL already
occurs among the stored items. -/
def is_duplicate (items : List Item) (url : String) : Bool :=
  (items.map (fun item => item.url)).contains url

/-- The duplicate filter each `search_web` / `search_github` call applies
to one provider response: results whose URL is already stored are
skipped.  The comparison is always against the store as it was loaded —
`collect_all` only extends the store after every search has run. -/
def filterNewResults (store : List Item) (results : List Item) : List Item :=
  results.filter (fun r => !is_duplicate store r.url)

/-- Embeds `InformationCollector.collect_all` (lines 141-170): one collection
pass over the listed provider responses (one per configured topic).
Returns the new store and the `new_items` list. -/
def collect_all (store : List Item) (batches : List (List Item)) :
    List Item × List Item :=
  let newItems := batches.foldl
    (fun acc batch => acc ++ filterNewResults store batch) []
  (store ++ newItems, newItems)

/-- Embeds `InformationCollector.update_item_status` (lines 179-187): walk the
item list, overwrite the status of the first item with a matching id,
attach the `evaluation` argument when one is given (Python
`if evaluation:`), and stop. -/
def update_item_status (store : List Item) (item_id : String)
    (status : String) (evaluation : Option EvalSlot) : List Item :=
  match store with
  | [] => []
  | item :: rest =>
    if item.id = item_id then
      { item with
        status := status,
        evaluation := match evaluation with
          | some e => some e
          | none => item.evaluation } :: rest
    else item :: update_item_status rest item_id status evaluation

/-- First stored item with the given id, as the Python loop finds it. -/
def find_item (store : List Item) (item_id : String) : Option Item :=
  store.find? (fun item => item.id = item_id)

/-- Lifecycle rank of an item status:
`pending_evaluation < evaluated < code_generated`. -/
def statusRank (status : String) : Nat :=
  if status = "pending_evaluation" then 0
  else if status = "evaluated" then 1
  else if status = "code_generated" then 2
  else 3

/-- The dict `{"generated_for": repos}` that `main.run_generation` builds. -/
def evalSlotOfGeneratedFor (repos : List String) : EvalSlot :=
  { recommendation := none, overall_score := none, generated_for := some repos }

/-- Embeds `DNACommitOrchestrator.run_generation`, lines 269-276 of src/main.py:
after generating code for an item it reads `item.get("generated_for", [])`,
appends the target repository, and passes the dict
`{"generated_for": generated_for}` as the `evaluation` argument of
`update_item_status` together with the new status `code_generated`. -/
def run_generation_status_update (store : List Item) (item : Item)
    (target_repo : String) : List Item :=
  let generated_for := (item.generated_for.getD []) ++ [target_repo]
  update_item_status store item.id "code_generated"
    (some (evalSlotOfGeneratedFor generated_for))

/-! ## `CodeGenerator.generate` (src/agents/generator.py, lines 381-499)

Each loop iteration makes exactly one model call
(`_generate_single_change`), whose observable outcome is either an
exception (`json.JSONDecodeError` when extraction plus repair still fails
to parse, or any transport error) or a parsed dict.  The list of outcomes
parameterizes what successive calls would produce. -/

inductive AttemptOutcome where
  | raises (msg : String)
  | parsed (c : SingleChange)
deriving DecidableEq

/-- The generation record assembled at the end of `generate`, or by
`_create_fallback_generation` (the wall-clock `generated_at` field is
omitted). -/
structure GenRecord where
  file_path : Option String
  function_name : Option String
  change_type : Option String
  diff : Option String
  description : Option String
  commit_message : Option String
  risk_level : Option String
  source_item_id : Option String
  source_title : Option String
  target_repo : String
  status : String
  error : Option String
  changes : List SingleChange
deriving DecidableEq

/-- Embeds `CodeGenerator._create_fallback_generation` (lines 468-486). -/
def create_fallback_generation (item : Item) (error : String) : GenRecord :=
  { file_path := none
    function_name := none
    change_type := none
    diff := none
    description := some ("生成失敗: " ++ error)
    commit_message := some ("[FAILED] コード生成失敗: " ++ item.title.take 50)
    risk_level := some "high"
    error := some error
    source_item_id := some item.id
    source_title := some item.title
    target_repo := item.target_repo.getD "raspi-voice8"
    status := "failed"
    changes := [] }

/-- The `for attempt in range(max_retries)` loop of `generate`
(lines 403-427) for one target file: returns the accepted change (if any
attempt succeeded), the accumulated `validation_errors`, the final
`last_error`, and how many model calls were made. -/
def attemptLoop (syntaxCheck : String → Option String) :
    List AttemptOutcome → List String → Option String →
    Option SingleChange × List String × Option String × Nat
  | [], vErrs, lastErr => (none, vErrs, lastErr, 0)
  | o :: rest, vErrs, lastErr =>
    match o with
    | .raises msg =>
      let (r, e, l, n) := attemptLoop syntaxCheck rest vErrs (some msg)
      (r, e, l, n + 1)
    | .parsed c =>
      let (ok, errs) := validate_generation syntaxCheck c
      if ok then (some c, vErrs, lastErr, 1)
      else
        let (r, e, l, n) := attemptLoop syntaxCheck rest (vErrs ++ errs)
          (some (String.intercalate "; " errs))
        (r, e, l, n + 1)

/-- The aggregated error text of the retry-exhaustion fallback
(line 437). -/
def allFailedMessage (validation_errors : List String) : String :=
  "全ファイルの生成失敗: " ++
    (if validation_errors.isEmpty then "Unknown error"
     else String.intercalate "; " validation_errors)

/-- Embeds `CodeGenerator.generate`: resolve targets (already gathered into
`targetFiles`), process only the first target, retry up to three times,
and assemble either the success record or the fallback.  Returns the
record and the number of model calls made. -/
def generate (syntaxCheck : String → Option String) (item : Item)
    (targetFiles : List String) (outcomes : List AttemptOutcome) :
    GenRecord × Nat :=
  let target_repo := item.target_repo.getD "raspi-voice8"
  if targetFiles.isEmpty then
    (create_fallback_generation item "変更対象ファイルが特定できません", 0)
  else
    let (accepted, vErrs, _lastErr, calls) :=
      attemptLoop syntaxCheck (outcomes.take 3) [] none
    match accepted with
    | none => (create_fallback_generation item (allFailedMessage vErrs), calls)
    | some c =>
      ({ file_path := c.file_path
         function_name := c.function_name
         change_type := some (c.change_type.getD "modify_function")
         diff := c.diff
         description := some (c.description.getD "")
         commit_message := some (c.commit_message.getD "")
         risk_level := some (c.risk_level.getD "low")
         source_item_id := some item.id
         source_title := some item.title
         target_repo := target_repo
         status := "pending_review"
         error := none
         changes := [c] }, calls)

/-- Any model-call outcome that fails the attempt: an exception (parse or
repair failure, transport error) or a parsed dict that fails validation. -/
def attemptFails (syntaxCheck : String → Option String)
    (o : AttemptOutcome) : Prop :=
  match o with
  | .raises _ => True
  | .parsed c => (validate_generation syntaxCheck c).1 = false

/-! ## `InformationEvaluator` (src/agents/evaluator.py)

The language-model call and `json.loads` on its (fence-stripped) output
are external collaborators, passed in as an `Except` result and a parse
function.  The history file is the state the methods thread. -/

structure Evaluation where
  quality_score : Option ℚ
  relevance_score : Option ℚ
  novelty_score : Option ℚ
  practicality_score : Option ℚ
  overall_score : Option ℚ
  summary : Option String
  applicable_areas : List String
  potential_improvements : List String
  risks : List String
  recommendation : Option String
  reasoning : Option String
  error : Option String
  item_id : Option String
deriving DecidableEq

structure EvalStatistics where
  total_evaluations : Nat
  counts : List (String × Nat)
  avg_quality_score : ℚ
  avg_relevance_score : ℚ
  avg_novelty_score : ℚ
  avg_practicality_score : ℚ
deriving DecidableEq

structure EvalHistory where
  evaluations : List Evaluation
  statistics : EvalStatistics
deriving DecidableEq

/-- Performs `stats[f"count_{rec}"] = stats.get(f"count_{rec}", 0) + 1` over an
association-list view of the statistics dict. -/
def bumpCount : List (String × Nat) → String → List (String × Nat)
  | [], key => [(key, 1)]
  | (k, v) :: rest, key =>
    if k = key then (k, v + 1) :: rest else (k, v) :: bumpCount rest key

/-- Embeds `InformationEvaluator._update_statistics` (lines 91-107): increment
the total, bump the per-recommendation count, and fold each sub-score
into its running average with
`new_avg = (old_avg*(n-1) + new_value)/n`, `n` the post-increment
total. -/
def update_statistics (stats : EvalStatistics) (evaluation : Evaluation) :
    EvalStatistics :=
  let total := stats.total_evaluations + 1
  let recommendation := evaluation.recommendation.getD "unknown"
  let step : ℚ → Option ℚ → ℚ := fun avg v =>
    (avg * ((total : ℚ) - 1) + v.getD 0) / (total : ℚ)
  { total_evaluations := total
    counts := bumpCount stats.counts recommendation
    avg_quality_score := step stats.avg_quality_score evaluation.quality_score
    avg_relevance_score := step stats.avg_relevance_score evaluation.relevance_score
    avg_novelty_score := step stats.avg_novelty_score evaluation.novelty_score
    avg_practicality_score := step stats.avg_practicality_score evaluation.practicality_score }

/-- Embeds `InformationEvaluator._create_fallback_evaluation` (lines 155-172). -/
def create_fallback_evaluation (item : Item) (error : String) : Evaluation :=
  { quality_score := some 0.5
    relevance_score := some 0.5
    novelty_score := some 0.5
    practicality_score := some 0.5
    overall_score := some 0.5
    summary := some "評価中にエラーが発生しました。手動確認が必要です。"
    applicable_areas := []
    potential_improvements := []
    risks := ["自動評価が失敗したため、手動確認推奨"]
    recommendation := some "consider"
    reasoning := some ("自動評価エラー: " ++ error)
    error := some error
    item_id := some item.id }

/-- Fenced-block extraction shared by evaluator and reviewer: the first
```json block if present, else the first fenced block of any kind, else
the whole response. -/
def extractFencedBlock (s : String) : String :=
  if strContains s "```json" then
    (((s.splitOn "```json").getD 1 "").splitOn "```").getD 0 ""
  else if strContains s "```" then
    (((s.splitOn "```").getD 1 "").splitOn "```").getD 0 ""
  else s

/-- Embeds `InformationEvaluator.evaluate` (lines 109-153): on a transport error
or a parse failure of the extracted text, return the fallback evaluation
and leave the history untouched; on success, stamp the item id, append to
the history and update the statistics. -/
def evaluate (history : EvalHistory) (item : Item)
    (callResult : Except String String)
    (parse : String → Except String Evaluation) : EvalHistory × Evaluation :=
  match callResult with
  | .error e => (history, create_fallback_evaluation item e)
  | .ok text =>
    match parse (extractFencedBlock text).trim with
    | .error e => (history, create_fallback_evaluation item e)
    | .ok ev =>
      let ev := { ev with item_id := some item.id }
      ({ evaluations := history.evaluations ++ [ev]
         statistics := update_statistics history.statistics ev }, ev)

/-! ## `GitCommitter` (src/agents/committer.py)

The git subprocess layer is the version-control collaborator.  Its
observable repository state for the claims is: the checked-out branch,
the set of branches, whether an unfinished (conflicted) merge is in
progress, and whether the working branch was merged into the main line.
The success/failure of each primitive the code invokes is supplied
through `GitEnv`. -/

structure GitRepo where
  current_branch : String
  branches : List String
  in_merge_conflict : Bool
  merged_to_main : Bool
  pushed : Bool
deriving DecidableEq

/-- Outcomes of the git primitives one `commit` call runs. -/
structure GitEnv where
  branch_ok : Bool
  applied_files : List String
  commit_ok : Bool
  commit_output : String
  commit_hash : String
  checkout_main_ok : Bool
  merge_conflicts : Bool
  push_ok : Bool

/-- Embeds `GitCommitter._merge_and_push` (lines 293-331): check out the main
line, merge the working branch — a conflict leaves the repository in a
conflicted merge which the code immediately clears with
`git merge --abort` and reports `False` — else push and delete the
branch. -/
def merge_and_push (repo : GitRepo) (branch_name : String)
    (checkout_main_ok merge_conflicts push_ok : Bool) : GitRepo × Bool :=
  if !checkout_main_ok then (repo, false)
  else
    let repo := { repo with current_branch := "main" }
    if merge_conflicts then
      let conflicted := { repo with in_merge_conflict := true }
      let aborted := { conflicted with in_merge_conflict := false }
      (aborted, false)
    else
      let merged := { repo with merged_to_main := true }
      if push_ok then
        ({ merged with
            pushed := true
            branches := merged.branches.erase branch_name }, true)
      else (merged, false)

/-- The commit record `GitCommitter.commit` assembles (line 208; the
wall-clock timestamp is omitted). -/
structure CommitResult where
  success : Bool
  commit_hash : Option String
  branch : Option String
  files_changed : List String
  error : Option String
  merged : Option Bool
deriving DecidableEq

/-- The tagged commit message (lines 242-250). -/
def build_commit_message (gen : GenRecord) (reviewed : Bool) : String :=
  (if reviewed then "[REVIEWED] " else "[AUTO] ") ++
    gen.commit_message.getD "DNA-commit: 自動生成コード" ++
    "\n\nGenerated by DNA-commit system" ++
    "\nSource: " ++ gen.source_title.getD "unknown" ++
    "\nRisk level: " ++ gen.risk_level.getD "unknown"

/-- Embeds `GitCommitter.commit` (lines 206-281): create/switch to the working
branch, apply the changes, stage, commit, and — only when `reviewed` —
merge and push.  Note that after a successful `git commit` the record's
`success` flag is set `True` and is never revisited; a failed merge only
lands in the separate `merged` field. -/
def commit (repo : GitRepo) (gen : GenRecord) (reviewed : Bool)
    (branch_name : String) (env : GitEnv) : GitRepo × CommitResult :=
  let base : CommitResult :=
    { success := false, commit_hash := none, branch := none
      files_changed := [], error := none, merged := none }
  if !env.branch_ok then
    (repo, { base with error := some "ブランチ作成失敗" })
  else
    let repo := { repo with
      current_branch := branch_name
      branches :=
        if repo.branches.contains branch_name then repo.branches
        else branch_name :: repo.branches }
    let res := { base with branch := some branch_name }
    if env.applied_files.isEmpty then
      (repo, { res with error := some "適用可能な変更がありません" })
    else
      let res := { res with files_changed := env.applied_files }
      let _commit_message := build_commit_message gen reviewed
      if env.commit_ok then
        let res := { res with
          commit_hash := some (env.commit_hash.take 8)
          success := true }
        if reviewed then
          let (repo2, merge_success) := merge_and_push repo branch_name
            env.checkout_main_ok env.merge_conflicts env.push_ok
          (repo2, { res with merged := some merge_success })
        else (repo, res)
      else
        (repo, { res with error := some env.commit_output })

/-- The `validation_errors` list `generate` accumulates over a run of
failing attempts (exceptions contribute nothing; a parsed-but-invalid
attempt contributes its validation errors). -/
def accumValidationErrors (syntaxCheck : String → Option String) :
    List AttemptOutcome → List String
  | [] => []
  | .raises _ :: rest => accumValidationErrors syntaxCheck rest
  | .parsed c :: rest =>
    (validate_generation syntaxCheck c).2 ++ accumValidationErrors syntaxCheck rest

/-- The final `last_error` value after a run of attempts (matching the
updates `attemptLoop` performs). -/
def finalLastErr (syntaxCheck : String → Option String) :
    List AttemptOutcome → Option String → Option String
  | [], lastErr => lastErr
  | .raises msg :: rest, _ => finalLastErr syntaxCheck rest (some msg)
  | .parsed c :: rest, lastErr =>
    if (validate_generation syntaxCheck c).1 then lastErr
    else finalLastErr syntaxCheck rest
      (some (String.intercalate "; " (validate_generation syntaxCheck c).2))

/-! ## Concrete instances used as witnesses and counterexamples -/

/-- A review with the four gate conditions satisfied and the `issues`
field absent. -/
def reviewNoIssuesField : Review :=
  { approved := some true
    security_score := some 0.9
    quality_score := none
    compatibility_score := none
    overall_score := some 0.75
    issues := none
    recommendation := some "approve" }

/-- A blank item. -/
def itemBlank : Item :=
  { id := "item0", url := "https://example.com/a", title := "Example"
    status := "pending_evaluation", evaluation := none
    generated_for := none, target_repo := none }

/-- A second discovered item carrying the same URL as `itemBlank`. -/
def itemSameUrl : Item :=
  { id := "item1", url := "https://example.com/a", title := "Example again"
    status := "pending_evaluation", evaluation := none
    generated_for := none, target_repo := none }

/-- An item that has been evaluated with an adopt recommendation. -/
def itemEvaluated : Item :=
  { id := "item2", url := "https://example.com/b", title := "Adopted"
    status := "evaluated"
    evaluation := some
      { recommendation := some "adopt", overall_score := some (0.9 : ℚ)
        generated_for := none }
    generated_for := none, target_repo := none }

/-- A clean repository sitting on `main`. -/
def repoClean : GitRepo :=
  { current_branch := "main", branches := ["main"]
    in_merge_conflict := false, merged_to_main := false, pushed := false }

/-- A generation record ready to commit. -/
def genReady : GenRecord :=
  { file_path := some "main.py", function_name := some "f"
    change_type := some "add_function", diff := some "+pass"
    description := some "d", commit_message := some "msg"
    risk_level := some "low", source_item_id := some "item2"
    source_title := some "Adopted", target_repo := "raspi-voice8"
    status := "approved", error := none, changes := [] }

/-- Git primitive outcomes for a run whose merge hits a conflict. -/
def envMergeConflict : GitEnv :=
  { branch_ok := true, applied_files := ["main.py"], commit_ok := true
    commit_output := "", commit_hash := "0123456789abcdef"
    checkout_main_ok := true, merge_conflicts := true, push_ok := true }

/-- Valid JSON whose double-quote character count is odd because one
quote is escaped inside a string value: `{"a": "b\"c"}`. -/
def jsonEscapedQuote : String := "\x7b\"a\": \"b\\\"c\"\x7d"

/-- A JSON string missing one trailing `"` and one trailing `}`:
`{"key": "value`. -/
def jsonMissingBoth : String := "\x7b\"key\": \"value"

/-- An empty evaluation history. -/
def historyEmpty : EvalHistory :=
  { evaluations := []
    statistics :=
      { total_evaluations := 0, counts := []
        avg_quality_score := 0, avg_relevance_score := 0
        avg_novelty_score := 0, avg_practicality_score := 0 } }

/-- A parse oracle that always fails. -/
def parseAlwaysFails : String → Except String Evaluation :=
  fun _ => .error "Expecting value: line 1 column 1 (char 0)"

/-- A syntax-check oracle that always accepts. -/
def syntaxCheckOk : String → Option String := fun _ => none

/-! ## Theorems -/

/-- Claim C1 (counterexample): a review in which the `issues` field is
missing, while the other four gate conditions hold, is auto-approved —
so "for every review in which any one of these fields is missing, it
returns false" fails for the `issues` field, which
`review.get("issues", [])` silently defaults to the empty list. -/
theorem should_auto_approve_missing_issues_counterexample :
    should_auto_approve reviewNoIssuesField = true ∧
      reviewNoIssuesField.issues = none := by
  constructor
  · norm_num [should_auto_approve, reviewNoIssuesField]
  · rfl

/-- Claim C1 (amended): `should_auto_approve` returns true iff
`approved` defaults-false is true, `recommendation` equals `"approve"`,
`security_score` (default 0) is at least 0.8, `overall_score` (default 0)
is at least 0.7, and no issue in the issue list (default empty) has
severity `critical`.  A missing `approved`, `recommendation`,
`security_score` or `overall_score` therefore forces false, but a missing
`issues` field is treated as an empty list and does not. -/
theorem should_auto_approve_iff (review : Review) :
    should_auto_approve review = true ↔
      (review.approved.getD false = true ∧
       review.recommendation = some "approve" ∧
       (0.8 : ℚ) ≤ review.security_score.getD 0 ∧
       (0.7 : ℚ) ≤ review.overall_score.getD 0 ∧
       ∀ issue ∈ review.issues.getD [], issue.severity ≠ some "critical") := by
  unfold should_auto_approve
  split_ifs with h1 h2 h3 h4 h5 <;>
    simp_all [List.any_eq_true, not_lt, le_of_lt]

/-- Claim C2 (counterexample): a concrete reviewed commit whose merge
hits a conflict still yields a commit record with `success = True` — the
merge failure is recorded only in the separate `merged` field, so the
record is not "marked unsuccessful" as claimed. -/
theorem commit_merge_conflict_success_counterexample :
    (commit repoClean genReady true "dna-auto/20260101_000000"
        envMergeConflict).2.success = true ∧
      (commit repoClean genReady true "dna-auto/20260101_000000"
        envMergeConflict).2.merged = some false := by
  constructor <;> rfl

/-- Claim C2 (amended): when the merge of the working branch conflicts,
the code explicitly aborts the merge, so the repository is never left in
a half-merged/conflicted state and the merge failure is reported through
the record's `merged = False` field — but the record's `success` flag
remains `True`, because the branch commit itself succeeded and `success`
is set before the merge is attempted and never revisited. -/
theorem commit_merge_conflict_aborts (repo : GitRepo) (gen : GenRecord)
    (branch_name : String) (env : GitEnv)
    (hb : env.branch_ok = true) (ha : env.applied_files ≠ [])
    (hc : env.commit_ok = true) (hm : env.checkout_main_ok = true)
    (hconf : env.merge_conflicts = true) :
    (commit repo gen true branch_name env).1.in_merge_conflict = false ∧
      (commit repo gen true branch_name env).2.merged = some false ∧
      (commit repo gen true branch_name env).2.success = true := by
  have ha' : env.applied_files.isEmpty = false := by
    simpa [List.isEmpty_iff] using ha
  simp [commit, merge_and_push, hb, ha', hc, hm, hconf]

/-- Claim C2 (witness for the amended theorem). -/
theorem commit_merge_conflict_aborts_witness :
    (commit repoClean genReady true "dna-auto/20260101_000000"
        envMergeConflict).1.in_merge_conflict = false ∧
      (commit repoClean genReady true "dna-auto/20260101_000000"
        envMergeConflict).2.merged = some false ∧
      (commit repoClean genReady true "dna-auto/20260101_000000"
        envMergeConflict).2.success = true :=
  commit_merge_conflict_aborts repoClean genReady "dna-auto/20260101_000000"
    envMergeConflict rfl (by decide) rfl rfl rfl

/-- Helper: when every attempt fails, the retry loop accepts nothing,
accumulates exactly the validation errors of the parsed-but-invalid
attempts, and makes one model call per attempt. -/
theorem attemptLoop_all_fail (sc : String → Option String)
    (outs : List AttemptOutcome) (hall : ∀ o ∈ outs, attemptFails sc o) :
    ∀ (vErrs : List String) (lastErr : Option String),
      attemptLoop sc outs vErrs lastErr =
        (none, vErrs ++ accumValidationErrors sc outs,
          finalLastErr sc outs lastErr, outs.length) := by
  induction outs with
  | nil =>
    intro vErrs lastErr
    simp [attemptLoop, accumValidationErrors, finalLastErr]
  | cons o rest ih =>
    have hrest : ∀ o ∈ rest, attemptFails sc o :=
      fun o ho => hall o (List.mem_cons_of_mem _ ho)
    intro vErrs lastErr
    cases o with
    | raises msg =>
      simp [attemptLoop, accumValidationErrors, finalLastErr, ih hrest]
    | parsed c =>
      have hv : (validate_generation sc c).1 = false :=
        hall _ (List.mem_cons_self _ _)
      rcases hveq : validate_generation sc c with ⟨ok, errs⟩
      rw [hveq] at hv
      simp only at hv
      subst hv
      simp [attemptLoop, accumValidationErrors, finalLastErr, hveq, ih hrest]

/-- Claim C3: when every model call yields invalid output (an exception
from parse/repair, or a parsed dict failing validation), `generate` for a
single target file makes exactly 3 model calls and returns the fallback
generation: `status = "failed"`, the aggregated error text, no diff, and
an empty changes list. -/
theorem generate_retry_exhaustion (sc : String → Option String)
    (item : Item) (file : String) (o1 o2 o3 : AttemptOutcome)
    (h1 : attemptFails sc o1) (h2 : attemptFails sc o2)
    (h3 : attemptFails sc o3) :
    generate sc item [file] [o1, o2, o3] =
      (create_fallback_generation item
        (allFailedMessage (accumValidationErrors sc [o1, o2, o3])), 3) ∧
      (generate sc item [file] [o1, o2, o3]).1.status = "failed" ∧
      (generate sc item [file] [o1, o2, o3]).1.diff = none ∧
      (generate sc item [file] [o1, o2, o3]).1.changes = [] ∧
      (generate sc item [file] [o1, o2, o3]).2 = 3 := by
  have hall : ∀ o ∈ [o1, o2, o3], attemptFails sc o := by
    intro o ho
    simp only [List.mem_cons, List.not_mem_nil, or_false] at ho
    rcases ho with rfl | rfl | rfl <;> assumption
  have hloop := attemptLoop_all_fail sc [o1, o2, o3] hall [] none
  have hmain : generate sc item [file] [o1, o2, o3] =
      (create_fallback_generation item
        (allFailedMessage (accumValidationErrors sc [o1, o2, o3])), 3) := by
    unfold generate
    simp [List.take, hloop]
  refine ⟨hmain, ?_, ?_, ?_, ?_⟩ <;>
    rw [hmain] <;> rfl

/-- Claim C3 (witness): three calls all raising a parse error. -/
theorem generate_retry_exhaustion_witness :
    generate syntaxCheckOk itemBlank ["main.py"]
        [.raises "Expecting value", .raises "Expecting value",
          .raises "Expecting value"] =
      (create_fallback_generation itemBlank
        (allFailedMessage (accumValidationErrors syntaxCheckOk
          [.raises "Expecting value", .raises "Expecting value",
            .raises "Expecting value"])), 3) ∧
      (generate syntaxCheckOk itemBlank ["main.py"]
        [.raises "Expecting value", .raises "Expecting value",
          .raises "Expecting value"]).1.status = "failed" ∧
      (generate syntaxCheckOk itemBlank ["main.py"]
        [.raises "Expecting value", .raises "Expecting value",
          .raises "Expecting value"]).1.diff = none ∧
      (generate syntaxCheckOk itemBlank ["main.py"]
        [.raises "Expecting value", .raises "Expecting value",
          .raises "Expecting value"]).1.changes = [] ∧
      (generate syntaxCheckOk itemBlank ["main.py"]
        [.raises "Expecting value", .raises "Expecting value",
          .raises "Expecting value"]).2 = 3 :=
  generate_retry_exhaustion syntaxCheckOk itemBlank "main.py"
    (.raises "Expecting value") (.raises "Expecting value")
    (.raises "Expecting value") trivial trivial trivial

/-- Claim C4 (counterexample): two discovered items with the same URL
arriving in the same collection pass are both stored — the duplicate
check consults only the store as it was before the pass, which
`collect_all` extends only after every search has run.  The store ends
with two entries for the URL, not one. -/
theorem collect_all_same_pass_duplicate_counterexample :
    ((collect_all [] [[itemBlank], [itemSameUrl]]).1.filter
        (fun it => it.url = "https://example.com/a")).length = 2 := by
  rfl

/-- Claim C4 (amended): deduplication does hold against the persisted
store — a collection pass adds no item whose URL is already stored, in
particular re-discovering a URL in any later pass is a no-op for that
URL; only two same-URL items inside one pass can both enter the store. -/
theorem collect_all_no_new_duplicates (store : List Item)
    (batches : List (List Item)) (url : String)
    (h : is_duplicate store url = true) :
    (collect_all store batches).1.filter (fun it => it.url = url) =
      store.filter (fun it => it.url = url) := by
  have hbatch : ∀ batch : List Item,
      (filterNewResults store batch).filter (fun it => it.url = url) = [] := by
    intro batch
    rw [List.filter_eq_nil_iff]
    intro a ha
    simp only [filterNewResults, List.mem_filter, Bool.not_eq_true'] at ha
    intro hurl
    simp only [decide_eq_true_eq] at hurl
    rw [hurl] at ha
    exact absurd h (by simp [ha.2])
  have hfold : ∀ (bs : List (List Item)) (acc : List Item),
      (bs.foldl (fun acc batch => acc ++ filterNewResults store batch)
          acc).filter (fun it => it.url = url) =
        acc.filter (fun it => it.url = url) := by
    intro bs
    induction bs with
    | nil => intro acc; rfl
    | cons b rest ih =>
      intro acc
      simp only [List.foldl_cons]
      rw [ih, List.filter_append, hbatch b, List.append_nil]
  simp only [collect_all, List.filter_append, hfold, List.filter_nil,
    List.append_nil]

/-- Claim C4 (witness for the amended theorem): a second pass
re-discovering a stored URL adds nothing. -/
theorem collect_all_no_new_duplicates_witness :
    (collect_all [itemBlank] [[itemSameUrl]]).1.filter
        (fun it => it.url = "https://example.com/a") =
      [itemBlank].filter (fun it => it.url = "https://example.com/a") :=
  collect_all_no_new_duplicates [itemBlank] [[itemSameUrl]]
    "https://example.com/a" (by decide)

/-- Claim C5 (counterexample): the public store operation
`update_item_status` moves an evaluated item straight back to
`pending_evaluation` — a strictly backward move in the lifecycle order —
because it overwrites the status with whatever value it is handed. -/
theorem update_item_status_backward_counterexample :
    (find_item (update_item_status [itemEvaluated] "item2"
          "pending_evaluation" none) "item2").map Item.status =
        some "pending_evaluation" ∧
      statusRank "pending_evaluation" < statusRank "evaluated" := by
  constructor
  · rfl
  · decide

/-- Claim C5 (amended): `update_item_status` performs an unconditional
overwrite — after the call, the first item with the given id carries
exactly the status argument (and the attachment, when one is passed),
with no monotonicity guard.  The lifecycle order is therefore
non-decreasing only because the orchestrator happens to issue forward
transitions; the store itself cannot prevent a backward move. -/
theorem update_item_status_overwrites (store : List Item)
    (item_id status : String) (att : Option EvalSlot) :
    find_item (update_item_status store item_id status att) item_id =
      (find_item store item_id).map (fun item =>
        { item with
          status := status
          evaluation := match att with
            | some e => some e
            | none => item.evaluation }) := by
  induction store with
  | nil => rfl
  | cons head rest ih =>
    by_cases h : head.id = item_id
    · simp [update_item_status, find_item, h]
    · have ih' := ih
      simp only [find_item] at ih'
      simp [update_item_status, find_item, h, ih']

/-- Claim C6: whenever the model call raises or its output fails JSON
parsing, `evaluate` returns the fallback evaluation — recommendation
`"consider"`, all four sub-scores 0.5, the error text preserved — and
(being a total function of the collaborator outcomes) never raises. -/
theorem evaluate_fallback_on_failure (history : EvalHistory) (item : Item)
    (callResult : Except String String)
    (parse : String → Except String Evaluation)
    (h : (∃ e, callResult = .error e) ∨
      ∃ t e, callResult = .ok t ∧
        parse (extractFencedBlock t).trim = .error e) :
    ∃ err,
      evaluate history item callResult parse =
        (history, create_fallback_evaluation item err) ∧
      (evaluate history item callResult parse).2.recommendation =
        some "consider" ∧
      (evaluate history item callResult parse).2.quality_score = some 0.5 ∧
      (evaluate history item callResult parse).2.relevance_score = some 0.5 ∧
      (evaluate history item callResult parse).2.novelty_score = some 0.5 ∧
      (evaluate history item callResult parse).2.practicality_score =
        some 0.5 ∧
      (evaluate history item callResult parse).2.error = some err := by
  rcases h with ⟨e, rfl⟩ | ⟨t, e, rfl, hp⟩
  · exact ⟨e, rfl, rfl, rfl, rfl, rfl, rfl, rfl⟩
  · have hmain : evaluate history item (.ok t) parse =
        (history, create_fallback_evaluation item e) := by
      simp [evaluate, hp]
    exact ⟨e, hmain, by rw [hmain]; rfl, by rw [hmain]; rfl,
      by rw [hmain]; rfl, by rw [hmain]; rfl, by rw [hmain]; rfl,
      by rw [hmain]; rfl⟩

/-- Claim C6 (witness): a collaborator that raises. -/
theorem evaluate_fallback_on_failure_witness :
    ∃ err,
      evaluate historyEmpty itemBlank (Except.error "API connection error")
          parseAlwaysFails =
        (historyEmpty, create_fallback_evaluation itemBlank err) ∧
      (evaluate historyEmpty itemBlank (Except.error "API connection error")
          parseAlwaysFails).2.recommendation = some "consider" ∧
      (evaluate historyEmpty itemBlank (Except.error "API connection error")
          parseAlwaysFails).2.quality_score = some 0.5 ∧
      (evaluate historyEmpty itemBlank (Except.error "API connection error")
          parseAlwaysFails).2.relevance_score = some 0.5 ∧
      (evaluate historyEmpty itemBlank (Except.error "API connection error")
          parseAlwaysFails).2.novelty_score = some 0.5 ∧
      (evaluate historyEmpty itemBlank (Except.error "API connection error")
          parseAlwaysFails).2.practicality_score = some 0.5 ∧
      (evaluate historyEmpty itemBlank (Except.error "API connection error")
          parseAlwaysFails).2.error = some err :=
  evaluate_fallback_on_failure historyEmpty itemBlank
    (Except.error "API connection error") parseAlwaysFails
    (Or.inl ⟨"API connection error", rfl⟩)

/-- Claim C10: on a collaborator exception or a parse failure the
evaluation history and statistics are exactly what they were before the
call (the fallback is not appended or counted); only a successfully
parsed evaluation is appended and folded into the statistics. -/
theorem evaluate_state_unchanged_on_error (history : EvalHistory)
    (item : Item) (callResult : Except String String)
    (parse : String → Except String Evaluation) :
    (((∃ e, callResult = .error e) ∨
        ∃ t e, callResult = .ok t ∧
          parse (extractFencedBlock t).trim = .error e) →
      (evaluate history item callResult parse).1 = history) ∧
    (∀ t ev, callResult = .ok t →
      parse (extractFencedBlock t).trim = .ok ev →
      (evaluate history item callResult parse).1 =
        { evaluations := history.evaluations ++
            [{ ev with item_id := some item.id }]
          statistics := update_statistics history.statistics
            { ev with item_id := some item.id } }) := by
  constructor
  · rintro (⟨e, rfl⟩ | ⟨t, e, rfl, hp⟩)
    · rfl
    · simp [evaluate, hp]
  · rintro t ev rfl hp
    simp [evaluate, hp]

/-- Claim C10 (witness): a raising collaborator leaves the history
untouched. -/
theorem evaluate_state_unchanged_on_error_witness :
    (evaluate historyEmpty itemBlank (Except.error "boom")
        parseAlwaysFails).1 = historyEmpty :=
  (evaluate_state_unchanged_on_error historyEmpty itemBlank
      (Except.error "boom") parseAlwaysFails).1 (Or.inl ⟨"boom", rfl⟩)

/-- Claim C9 (code bug, exhibited): `run_generation` passes the dict
`{"generated_for": [target_repo]}` through the `evaluation` parameter of
`update_item_status`, which stores it into `item["evaluation"]` — the
attached evaluation record (here `{recommendation: "adopt",
overall_score: 0.9}`) is replaced by a dict that is not an evaluation at
all.  This also defeats the code's own later read of
`item.get("generated_for", [])`, which looks at the top-level attribute
the value was never written to. -/
theorem run_generation_overwrites_evaluation :
    (find_item (run_generation_status_update [itemEvaluated] itemEvaluated
        "raspi-voice8") "item2").map Item.evaluation =
      some (some (evalSlotOfGeneratedFor ["raspi-voice8"])) ∧
    some (evalSlotOfGeneratedFor ["raspi-voice8"]) ≠
      itemEvaluated.evaluation ∧
    (find_item (run_generation_status_update [itemEvaluated] itemEvaluated
        "raspi-voice8") "item2").map Item.generated_for = some none := by
  refine ⟨rfl, ?_, rfl⟩
  intro hcontra
  simp [evalSlotOfGeneratedFor, itemEvaluated] at hcontra

/-- Helper: character counts distribute over string append. -/
theorem countChar_append (c : Char) (s t : String) :
    countChar c (s ++ t) = countChar c s + countChar c t := by
  have h : (s ++ t).toList = s.toList ++ t.toList := rfl
  simp [countChar, h, List.count_append]

/-- Helper: `String.mk` length. -/
theorem string_mk_length (l : List Char) : (String.mk l).length = l.length :=
  rfl

/-- Helper: appending the repair quote does not change the count of any
other character. -/
theorem countChar_append_quote (c : Char) (hc : c ≠ '"') (s : String) :
    countChar c (s ++ "\"") = countChar c s := by
  rw [countChar_append]
  have h0 : countChar c "\"" = 0 := by
    simp [countChar, List.count_cons, beq_iff_eq, Ne.symm hc]
  rw [h0, add_zero]

/-- Helper: how many characters `repair_json` appends, as a function of
the input's counts. -/
theorem repair_json_length (s : String) :
    (repair_json s).length =
      s.length + (if countChar '"' s % 2 = 1 then 1 else 0) +
        (if 0 < countChar '[' s - countChar ']' s then
          (countChar '[' s - countChar ']' s).toNat else 0) +
        (if 0 < countChar '{' s - countChar '}' s then
          (countChar '{' s - countChar '}' s).toNat else 0) := by
  by_cases h1 : countChar '"' s % 2 = 1
  · simp only [repair_json, if_pos h1,
      countChar_append_quote '[' (by decide) s,
      countChar_append_quote ']' (by decide) s,
      countChar_append_quote '{' (by decide) s,
      countChar_append_quote '}' (by decide) s]
    split_ifs <;>
      simp [String.length_append, List.length_replicate] <;> rfl
  · simp only [repair_json, if_neg h1]
    split_ifs <;>
      simp [String.length_append, List.length_replicate]

/-- Claim C7 (counterexample): `{"a": "b\"c"}` is valid JSON, but its
double-quote character count is odd (one quote is escaped), so
`repair_json` appends a quote and returns a different string — the
repair function is not the identity on all valid JSON. -/
theorem repair_json_counterexample :
    jsonParses jsonEscapedQuote = true ∧
      repair_json jsonEscapedQuote ≠ jsonEscapedQuote := by
  constructor
  · rfl
  · decide

/-- Claim C7 (amended): on the representative truncated input
`{"key": "value` (missing one trailing `"` and one trailing `}`) the
repair produces a string that parses as JSON; and `repair_json` returns
its input unchanged exactly when the input has an even `"` count and no
positive excess of `[` over `]` or `{` over `}` — valid JSON satisfying
those conditions is untouched, but valid JSON violating them (escaped
quotes, brackets inside string values) is modified. -/
theorem repair_json_amended :
    jsonParses (repair_json jsonMissingBoth) = true ∧
      ∀ s : String, repair_json s = s ↔
        (¬ countChar '"' s % 2 = 1 ∧
         countChar '[' s - countChar ']' s ≤ 0 ∧
         countChar '{' s - countChar '}' s ≤ 0) := by
  constructor
  · rfl
  · intro s
    constructor
    · intro h
      have hlen := repair_json_length s
      rw [h] at hlen
      refine ⟨fun hq => ?_, ?_, ?_⟩
      · rw [if_pos hq] at hlen
        split_ifs at hlen <;> omega
      · by_contra hb
        push_neg at hb
        rw [if_pos hb] at hlen
        split_ifs at hlen <;> omega
      · by_contra hb
        push_neg at hb
        rw [if_pos hb] at hlen
        split_ifs at hlen <;> omega
    · rintro ⟨h1, h2, h3⟩
      simp only [repair_json, if_neg h1, if_neg (not_lt.mpr h2),
        if_neg (not_lt.mpr h3)]

/-- Helper: an if-then-else list is empty iff its condition implies the
then-branch is. -/
theorem iteNilRight {c : Prop} [Decidable c] (L : List String) :
    ((if c then L else ([] : List String)) = []) ↔ (c → L = []) := by
  split_ifs with hc <;> simp [hc]

/-- Helper: an if-then-else list with empty then-branch is empty iff the
negated condition implies the else-branch is. -/
theorem iteNilLeft {c : Prop} [Decidable c] (L : List String) :
    ((if c then ([] : List String) else L) = []) ↔ (¬c → L = []) := by
  split_ifs with hc <;> simp [hc]

/-- Claim C8: `_validate_generation` accepts a parsed generation iff the
four required fields are present, the diff is non-empty with stripped
length at least 10, no bracket family has more than 2 net-unclosed
openers, both triple-quote delimiters occur an even number of times, and
the concatenated added lines pass the syntax check — a `SyntaxError`
being tolerated exactly when its text marks it as an end-of-input /
truncated-fragment error (contains `"unexpected EOF"`, or `"expected"`
after lowercasing). -/
theorem validate_generation_iff (sc : String → Option String)
    (g : SingleChange) :
    (validate_generation sc g).1 = true ↔
      (g.file_path ≠ none ∧ g.function_name ≠ none ∧ g.diff ≠ none ∧
        g.commit_message ≠ none ∧
        g.diff.getD "" ≠ "" ∧ 10 ≤ (g.diff.getD "").trim.length ∧
        countChar '(' (g.diff.getD "") - countChar ')' (g.diff.getD "") ≤ 2 ∧
        countChar '[' (g.diff.getD "") - countChar ']' (g.diff.getD "") ≤ 2 ∧
        countChar '{' (g.diff.getD "") - countChar '}' (g.diff.getD "") ≤ 2 ∧
        countSub tripleDouble (g.diff.getD "").toList % 2 = 0 ∧
        countSub tripleSingle (g.diff.getD "").toList % 2 = 0 ∧
        (addedLinesOf (g.diff.getD "") ≠ [] →
          ∀ e, sc (String.intercalate "\n" (addedLinesOf (g.diff.getD ""))) =
              some e → isToleratedSyntaxError e = true)) := by
  unfold validate_generation
  rcases hsc : sc (String.intercalate "\n" (addedLinesOf (g.diff.getD "")))
    with _ | e <;>
    simp only [hsc, List.isEmpty_iff, List.append_eq_nil, iteNilRight,
      iteNilLeft, List.cons_ne_nil, imp_false, not_lt, not_not, not_or,
      Option.isNone_iff_eq_none, Nat.mod_two_ne_one, Option.some.injEq,
      forall_eq', Bool.not_eq_true, gt_iff_lt, Option.ne_none_iff_isSome,
      ne_eq, reduceCtorEq, implies_true, and_true, forall_const,
      Bool.or_eq_false_iff, decide_eq_false_iff_not, Bool.or_eq_true,
      decide_eq_true_eq, Bool.not_eq_false] <;>
    constructor <;> intro h <;> tauto

end DNACommit
